import Mathlib

/-!
Shallow embedding of the Jarvis crypto voice assistant (src/App.tsx).

The embedding covers: the JavaScript string operations the code relies on
(substring `includes`, lower-casing, single-character `replace`, the decimal
regex rewrite of `speakText`), the symbol-alias table `normalizeSymbol`, the
keyword cascade of the `processCommand` effect, the trend/sentiment/advice
computation of `speakAnalysis`/`generateAdvice`, and the dialogue
orchestrator as a step function on an explicit application state, with the
external market service and clock supplied as an oracle and the network and
speech effects recorded as an action list.
-/

/-- Check that `pre` is a leading segment of `l` (character-wise). -/
def startsList : List Char → List Char → Bool
  | [], _ => true
  | _ :: _, [] => false
  | a :: as, b :: bs => a == b && startsList as bs

/-- JavaScript `String.prototype.includes`, on character lists:
`needle` occurs contiguously inside the second list. -/
def hasSub (needle : List Char) : List Char → Bool
  | [] => startsList needle []
  | c :: rest => startsList needle (c :: rest) || hasSub needle rest

/-- JavaScript `hay.includes(needle)`. -/
def strIncludes (hay needle : String) : Bool :=
  hasSub needle.data hay.data

/-- JavaScript `toLowerCase` (ASCII, which is all the code's keywords use). -/
def toLowerStr (s : String) : String :=
  String.mk (s.data.map Char.toLower)

/-- The alias table of `normalizeSymbol` (src/App.tsx lines 135-162),
in source order. -/
def symbolMap : List (String × String) :=
  [("bitcoin", "BTCUSDT"), ("btc", "BTCUSDT"),
   ("ethereum", "ETHUSDT"), ("eth", "ETHUSDT"),
   ("binance coin", "BNBUSDT"), ("bnb", "BNBUSDT"),
   ("cardano", "ADAUSDT"), ("ada", "ADAUSDT"),
   ("solana", "SOLUSDT"), ("sol", "SOLUSDT"),
   ("ripple", "XRPUSDT"), ("xrp", "XRPUSDT"),
   ("dogecoin", "DOGEUSDT"), ("doge", "DOGEUSDT"),
   ("polkadot", "DOTUSDT"), ("dot", "DOTUSDT"),
   ("avalanche", "AVAXUSDT"), ("avax", "AVAXUSDT"),
   ("shiba inu", "SHIBUSDT"), ("shib", "SHIBUSDT"),
   ("litecoin", "LTCUSDT"), ("ltc", "LTCUSDT"),
   ("chainlink", "LINKUSDT"), ("link", "LINKUSDT"),
   ("polygon", "MATICUSDT"), ("matic", "MATICUSDT")]

/-- JavaScript `trim`: drop whitespace from both ends. -/
def trimChars (l : List Char) : List Char :=
  ((l.dropWhile Char.isWhitespace).reverse.dropWhile Char.isWhitespace).reverse

/-- `normalizeSymbol` (src/App.tsx lines 132-165): lower-case and trim the
input, then look it up in the alias table; unknown input yields `none`. -/
def normalizeSymbol (input : String) : Option String :=
  let n := String.mk (trimChars (toLowerStr input).data)
  (symbolMap.find? (fun p => p.1 == n)).map (fun p => p.2)

/-- The conversational keywords tested first by `processCommand`
(src/App.tsx lines 411-423), in source order. -/
def convKeywords : List String :=
  ["who are you", "what are you", "how are you", "what can you do",
   "your name", "what time", "what day", "weather", "joke", "funny",
   "goodbye", "bye", "see you"]

/-- Whether the lowered transcript hits the first conversational check of
`processCommand`. -/
def convKeywordMatch (lt : String) : Bool :=
  convKeywords.any (fun k => strIncludes lt k)

/-- The crypto keyword vocabulary scanned by `processCommand`
(src/App.tsx lines 431-437), in source order. -/
def cryptoKeywords : List String :=
  ["bitcoin", "btc", "ethereum", "eth", "binance coin", "bnb",
   "cardano", "ada", "solana", "sol", "ripple", "xrp",
   "dogecoin", "doge", "polkadot", "dot", "avalanche", "avax",
   "shiba inu", "shib", "litecoin", "ltc", "chainlink", "link",
   "polygon", "matic"]

/-- The dispatch decision `processCommand` makes for one transcript:
which branch of the keyword cascade fires (src/App.tsx lines 392-475). -/
inductive Dispatch where
  | conversational (lower : String)
  | crypto (keyword : String)
  | greet
  | thanksReply
  | helpReply
  | stop
  | noMatch
deriving DecidableEq, BEq

/-- The keyword cascade of `processCommand`, in the source's test order:
first the conversational keyword group, then the crypto-keyword loop, then
the hello/thanks/help/stop-listening chain; nothing matching yields
`noMatch`. -/
def classify (transcript : String) : Dispatch :=
  let lt := toLowerStr transcript
  if convKeywordMatch lt then Dispatch.conversational lt
  else
    match cryptoKeywords.find? (fun kw => strIncludes lt kw) with
    | some kw => Dispatch.crypto kw
    | none =>
      if strIncludes lt "hello jarvis" || strIncludes lt "hi jarvis" ||
         strIncludes lt "hello" || strIncludes lt "hi" then Dispatch.greet
      else if strIncludes lt "thank you" || strIncludes lt "thanks" then
        Dispatch.thanksReply
      else if strIncludes lt "help" then Dispatch.helpReply
      else if strIncludes lt "stop listening" then Dispatch.stop
      else Dispatch.noMatch

/-- The trend/sentiment pair computed by `speakAnalysis`
(src/App.tsx lines 240-246): the sign tests read the absolute price change
`priceChangeNum`, the stability override reads the percent change. -/
def speakAnalysisTrendSentiment (priceChangeNum priceChangePercentNum : ℚ) :
    String × String :=
  let trend := if priceChangeNum > 0 then "upward" else "downward"
  let sentiment := if priceChangeNum > 0 then "positive" else "negative"
  if |priceChangePercentNum| < (0.5 : ℚ) then ("relatively stable", "neutral")
  else (trend, sentiment)

/-- Advice text of `generateAdvice` for a significant rise
(src/App.tsx line 267). -/
def significantUpAdvice : String :=
  "Be cautious as this significant upward movement might be followed by a correction."

/-- Advice text of `generateAdvice` for a significant drop
(src/App.tsx line 268). -/
def significantDownAdvice : String :=
  "This significant drop might present a buying opportunity, but be aware that the downtrend might continue."

/-- Advice text of `generateAdvice` for a stable market
(src/App.tsx line 270). -/
def consolidationAdvice : String :=
  "The market appears to be consolidating. This might be a period of accumulation before the next significant move."

/-- Fallback advice text of `generateAdvice` (src/App.tsx line 272). -/
def genericAdvice : String :=
  "Consider your investment strategy based on your risk tolerance and long-term outlook."

/-- `generateAdvice` (src/App.tsx lines 264-274). -/
def generateAdvice (priceChangePercent : ℚ) (trend : String) : String :=
  if |priceChangePercent| > 5 then
    if priceChangePercent > 0 then significantUpAdvice else significantDownAdvice
  else if trend == "relatively stable" then consolidationAdvice
  else genericAdvice

/-- Single-character global replacement, mirroring the `/\$/g`, `/%/g` and
`/\n/g` replaces of `speakText` (src/App.tsx lines 174-175 and 184). -/
def replaceChar (c : Char) (rep : List Char) : List Char → List Char
  | [] => []
  | a :: r => if a == c then rep ++ replaceChar c rep r
              else a :: replaceChar c rep r

/-- Split a maximal leading digit run from a character list. -/
def splitDigits : List Char → List Char × List Char
  | [] => ([], [])
  | c :: r =>
    if c.isDigit then
      let p := splitDigits r
      (c :: p.1, p.2)
    else ([], c :: r)

/-- The `/(\d+)\.(\d+)/g` rewrite of `speakText` (src/App.tsx lines
176-183): each decimal `<int>.<int>` becomes the dollars-and-cents form when
the matched substring contains a dollar sign (it never can, being
digits-only) or the original text mentions "price"/"dollar" (`ctx`), and the
"point" form otherwise. The fuel argument bounds the left-to-right scan; the
wrapper supplies enough fuel for the whole input. -/
def decimalRewriteF : Nat → Bool → List Char → List Char
  | 0, _, l => l
  | _ + 1, _, [] => []
  | fuel + 1, ctx, c :: rest =>
    if c.isDigit then
      let p1 := splitDigits (c :: rest)
      match p1.2 with
      | '.' :: r2 =>
        let p2 := splitDigits r2
        match p2.1 with
        | [] => p1.1 ++ '.' :: decimalRewriteF fuel ctx r2
        | _ :: _ =>
          (if hasSub ['$'] (p1.1 ++ '.' :: p2.1) || ctx then
              p1.1 ++ (" dollars and ").data ++ p2.1 ++ (" cents").data
            else p1.1 ++ (" point ").data ++ p2.1)
          ++ decimalRewriteF fuel ctx p2.2
      | _ => p1.1 ++ decimalRewriteF fuel ctx p1.2
    else c :: decimalRewriteF fuel ctx rest

/-- The `/\s+/g` → one space collapse of `speakText` (src/App.tsx line 185);
the flag records whether the previous character was whitespace. -/
def collapseWsAux : Bool → List Char → List Char
  | _, [] => []
  | prevWs, c :: rest =>
    if c.isWhitespace then
      if prevWs then collapseWsAux true rest
      else ' ' :: collapseWsAux true rest
    else c :: collapseWsAux false rest

/-- The `formattedText` pipeline of `speakText` (src/App.tsx lines 173-185):
replace dollar signs, then percent signs, then decimals, then newlines, then
collapse whitespace. The monetary context `ctx` reads the ORIGINAL text, as
the source's closure over `text` does. -/
def formatSpeechText (text : String) : String :=
  let ctx := strIncludes (toLowerStr text) "price" ||
             strIncludes (toLowerStr text) "dollar"
  let s1 := replaceChar '$' (" dollars ").data text.data
  let s2 := replaceChar '%' (" percent ").data s1
  let s3 := decimalRewriteF (s2.length + 1) ctx s2
  let s4 := replaceChar '\n' (". ").data s3
  String.mk (collapseWsAux false s4)


/-- One 24h ticker snapshot as delivered by the market service, with the
numeric fields already parsed (the source stores the strings and calls
`parseFloat` in `speakAnalysis`). -/
structure Ticker where
  priceChange : ℚ
  priceChangePercent : ℚ
  lastPrice : ℚ
  volume : ℚ
  highPrice : ℚ
  lowPrice : ℚ
deriving DecidableEq, BEq

/-- The `cryptoData` React state (src/App.tsx lines 12-20 and 98-106). -/
structure CryptoData where
  symbol : String
  priceChange : ℚ
  priceChangePercent : ℚ
  lastPrice : ℚ
  volume : ℚ
  highPrice : ℚ
  lowPrice : ℚ
deriving DecidableEq, BEq

/-- Build the stored `cryptoData` record from a symbol and a ticker
(src/App.tsx lines 98-106). -/
def mkCryptoData (ns : String) (tk : Ticker) : CryptoData :=
  { symbol := ns, priceChange := tk.priceChange,
    priceChangePercent := tk.priceChangePercent, lastPrice := tk.lastPrice,
    volume := tk.volume, highPrice := tk.highPrice, lowPrice := tk.lowPrice }

/-- What gets handed to the speech engine: either a raw text (`speakText`
callers) or the `speakAnalysis` narrative, carried structurally with the
derived trend, sentiment and advice. -/
inductive Utterance where
  | raw (text : String)
  | analysis (d : CryptoData) (trend sentiment advice : String)
deriving DecidableEq, BEq

/-- The utterance `speakAnalysis` produces for a stored snapshot
(src/App.tsx lines 233-261). -/
def speakAnalysisUtterance (d : CryptoData) : Utterance :=
  let ts := speakAnalysisTrendSentiment d.priceChange d.priceChangePercent
  Utterance.analysis d ts.1 ts.2 (generateAdvice d.priceChangePercent ts.1)

/-- Externally visible effects of one orchestrator step. -/
inductive Act where
  | speak (u : Utterance)
  | startTickerFetch (symbol : String)
  | startKlinesFetch (symbol : String)
  | stopStream
  | armWakeTimer
  | resetTranscript
deriving DecidableEq, BEq

/-- The mutable React state of `App` that the orchestrator reads and
writes (src/App.tsx lines 29-39). -/
structure AppState where
  autoListening : Bool
  listening : Bool
  cryptoData : Option CryptoData
  historicalPrices : List (Nat × ℚ)
  loading : Bool
  speaking : Bool
  error : Option String
  wakeWordDetected : Bool
  processingCommand : Bool
  lastInteraction : String
deriving DecidableEq, BEq

/-- The external world: market service responses per symbol (`none` models a
non-ok/throwing fetch) and the wall clock used by the time reply. -/
structure Oracle where
  ticker : String → Option Ticker
  klines : String → Option (List (Nat × ℚ))
  nowTime : String
  nowDate : String

/-- `responses[Math.floor(Math.random() * responses.length)]`, with the
random draw supplied as the `pick` parameter. -/
def pickFrom (pick : Nat) (l : List String) : String :=
  l.getD (pick % l.length) ""

/-- Identity reply of `handleConversation` (src/App.tsx line 290). -/
def identityMsg : String :=
  "I am Jarvis, an AI cryptocurrency analysis assistant developed by Eser Software. I was designed to help you track and analyze cryptocurrency markets in real-time. I can provide you with price information, market trends, and basic investment insights for various cryptocurrencies."

/-- Wellbeing replies of `handleConversation` (src/App.tsx lines 296-300). -/
def wellbeingResponses : List String :=
  ["I\x27m functioning optimally, thank you for asking. How can I assist you with cryptocurrency analysis today?",
   "I\x27m operating at peak efficiency. Ready to analyze any cryptocurrency you\x27re interested in.",
   "All systems are running smoothly. I\x27m ready to provide you with crypto market insights whenever you need them."]

/-- Capabilities reply of `handleConversation` (src/App.tsx line 307). -/
def capabilitiesMsg : String :=
  "I can provide real-time cryptocurrency analysis. Just mention a cryptocurrency like Bitcoin or Ethereum, and I\x27ll fetch the latest market data including price, 24-hour changes, trading volume, and a 7-day price chart. I can also offer basic market insights based on recent price movements. Feel free to ask me about any major cryptocurrency."

/-- Weather reply of `handleConversation` (src/App.tsx line 318). -/
def weatherMsg : String :=
  "I\x27m sorry, I don\x27t have access to weather information. I specialize in cryptocurrency analysis. Is there a specific cryptocurrency you\x27d like information about?"

/-- Joke replies of `handleConversation` (src/App.tsx lines 322-327). -/
def cryptoJokes : List String :=
  ["Why don\x27t Bitcoin investors want to go to heaven? They hate it when things go up and never come back down.",
   "Why was the cryptocurrency investor always calm? Because they were HODLing their breath.",
   "What do you call a cryptocurrency investor who finally sells? Bitconned.",
   "I told my wife I was investing all our money in crypto. She was so shocked, she was speechless for a whole Bitcoin transaction confirmation time."]

/-- Thanks replies of `handleConversation` (src/App.tsx lines 332-336). -/
def thanksResponses : List String :=
  ["You\x27re welcome. I\x27m here anytime you need cryptocurrency insights.",
   "Happy to help. Feel free to ask about any cryptocurrency you\x27re interested in.",
   "My pleasure. I\x27m always ready to provide market analysis when you need it."]

/-- Farewell replies of `handleConversation` (src/App.tsx lines 341-345). -/
def farewellResponses : List String :=
  ["Goodbye. I\x27ll be here when you need more cryptocurrency analysis.",
   "Until next time. Remember, markets change quickly, so check back for updated analysis.",
   "Farewell. I\x27ll keep monitoring the crypto markets while you\x27re away."]

/-- Default reply of `handleConversation` (src/App.tsx line 350). -/
def unrecognizedMsg : String :=
  "I\x27m not sure I understand. I\x27m specialized in cryptocurrency analysis. You can ask me about Bitcoin, Ethereum, or other major cryptocurrencies, or ask me who I am or how I\x27m doing."

/-- Greeting reply of `processCommand` (src/App.tsx line 454). -/
def helloMsg : String :=
  "Hello, I am Jarvis, your cryptocurrency analysis assistant. You can ask me about various cryptocurrencies like Bitcoin or Ethereum, or ask me questions like \x27How are you?\x27 or \x27Who are you?\x27"

/-- Thanks reply of `processCommand` (src/App.tsx line 459). -/
def thanksReplyMsg : String :=
  "You\x27re welcome. I\x27m here to help with your cryptocurrency analysis needs."

/-- Help reply of `processCommand` (src/App.tsx line 464). -/
def helpMsg : String :=
  "I can provide you with 24-hour analysis of various cryptocurrencies. Just say a cryptocurrency name like Bitcoin or Ethereum, and I\x27ll fetch the latest data and provide an analysis. You can also ask me general questions like \x27How are you?\x27 or \x27Who are you?\x27"

/-- Stop-listening confirmation of `processCommand` (src/App.tsx line 472). -/
def stopListeningMsg : String :=
  "I\x27ve stopped listening. Click the microphone button when you want me to listen again."

/-- The apology `fetchCryptoData`'s catch block speaks
(src/App.tsx line 125). -/
def cryptoApology (symbol msg : String) : String :=
  "I\x27m sorry, I couldn\x27t retrieve data for " ++ symbol ++ ". " ++ msg

/-- `handleConversation` (src/App.tsx lines 277-352): sets the processing
flag, marks speaking, and speaks the branch-specific reply; the transcript
was already lowered by the caller and is lowered again as in the source. -/
def handleConversation (o : Oracle) (pick : Nat) (text : String)
    (s : AppState) : AppState × List Act :=
  let s1 := { s with processingCommand := true, speaking := true,
                     lastInteraction := "conversation" }
  let lowerText := toLowerStr text
  let msg :=
    if strIncludes lowerText "who are you" || strIncludes lowerText "what are you" ||
       strIncludes lowerText "your name" ||
       (strIncludes lowerText "who" && strIncludes lowerText "jarvis") then
      identityMsg
    else if strIncludes lowerText "how are you" ||
            strIncludes lowerText "how do you feel" ||
            strIncludes lowerText "how\x27s it going" then
      pickFrom pick wellbeingResponses
    else if strIncludes lowerText "what can you do" ||
            strIncludes lowerText "your capabilities" ||
            strIncludes lowerText "help me" then
      capabilitiesMsg
    else if strIncludes lowerText "what time" || strIncludes lowerText "what day" ||
            strIncludes lowerText "what is the date" then
      "The current time is " ++ o.nowTime ++ " and today is " ++ o.nowDate ++ "."
    else if strIncludes lowerText "weather" || strIncludes lowerText "temperature" then
      weatherMsg
    else if strIncludes lowerText "joke" || strIncludes lowerText "funny" then
      pickFrom pick cryptoJokes
    else if strIncludes lowerText "thank you" || strIncludes lowerText "thanks" then
      pickFrom pick thanksResponses
    else if strIncludes lowerText "goodbye" || strIncludes lowerText "bye" ||
            strIncludes lowerText "see you" then
      pickFrom pick farewellResponses
    else unrecognizedMsg
  ({ s1 with speaking := true }, [Act.speak (Utterance.raw msg)])

/-- `fetchHistoricalPrices` (src/App.tsx lines 44-73): resolve the alias
again, fetch the candle series, store it on success; any failure is caught
and only logged, leaving the state untouched. -/
def fetchHistoricalPrices (o : Oracle) (symbol : String) (s : AppState) :
    AppState × List Act :=
  match normalizeSymbol symbol with
  | none => (s, [])
  | some ns =>
    match o.klines ns with
    | none => (s, [Act.startKlinesFetch ns])
    | some ps => ({ s with historicalPrices := ps }, [Act.startKlinesFetch ns])

/-- `fetchCryptoData` (src/App.tsx lines 76-129): set loading/speaking,
clear the error banner, resolve the alias (throwing into the catch on
failure), fetch the ticker (throwing on failure), store the snapshot, fetch
the history, then speak the analysis; the catch block sets the error banner
and speaks an apology, and the `finally` clears loading. -/
def fetchCryptoData (o : Oracle) (symbol : String) (s : AppState) :
    AppState × List Act :=
  let s1 := { s with loading := true, error := none, speaking := true,
                     lastInteraction := "crypto" }
  match normalizeSymbol symbol with
  | none =>
    let msg := "Could not recognize cryptocurrency: " ++ symbol
    ({ s1 with error := some msg, speaking := true, loading := false },
     [Act.speak (Utterance.raw (cryptoApology symbol msg))])
  | some ns =>
    match o.ticker ns with
    | none =>
      let msg := "Failed to fetch data for " ++ ns
      ({ s1 with error := some msg, speaking := true, loading := false },
       [Act.startTickerFetch ns,
        Act.speak (Utterance.raw (cryptoApology symbol msg))])
    | some tk =>
      let d := mkCryptoData ns tk
      let r := fetchHistoricalPrices o symbol { s1 with cryptoData := some d }
      ({ r.1 with speaking := true, loading := false },
       [Act.startTickerFetch ns] ++ r.2 ++
         [Act.speak (speakAnalysisUtterance d)])

/-- The transcript-processing effect (src/App.tsx lines 388-480): the
listening/empty guard, the processing-flag guard, the wake-word arm, then
the keyword cascade, with the per-branch state writes and effects of the
source. -/
def processTranscript (o : Oracle) (pick : Nat) (transcript : String)
    (s : AppState) : AppState × List Act :=
  if s.listening = false ∨ transcript = "" then (s, [])
  else if s.processingCommand then (s, [])
  else
    let lt := toLowerStr transcript
    let s0 := if strIncludes lt "jarvis" then { s with wakeWordDetected := true }
              else s
    let wakeActs := if strIncludes lt "jarvis" then [Act.armWakeTimer]
                    else ([] : List Act)
    match classify transcript with
    | Dispatch.conversational lower =>
      let r := handleConversation o pick lower s0
      (r.1, wakeActs ++ r.2 ++ [Act.resetTranscript])
    | Dispatch.crypto kw =>
      let r := fetchCryptoData o kw { s0 with processingCommand := true }
      (r.1, wakeActs ++ r.2 ++ [Act.resetTranscript])
    | Dispatch.greet =>
      ({ s0 with processingCommand := true, lastInteraction := "conversation",
                 speaking := true },
       wakeActs ++ [Act.speak (Utterance.raw helloMsg), Act.resetTranscript])
    | Dispatch.thanksReply =>
      ({ s0 with processingCommand := true, lastInteraction := "conversation",
                 speaking := true },
       wakeActs ++ [Act.speak (Utterance.raw thanksReplyMsg),
                    Act.resetTranscript])
    | Dispatch.helpReply =>
      ({ s0 with processingCommand := true, lastInteraction := "conversation",
                 speaking := true },
       wakeActs ++ [Act.speak (Utterance.raw helpMsg), Act.resetTranscript])
    | Dispatch.stop =>
      ({ s0 with processingCommand := true, lastInteraction := "conversation",
                 autoListening := false, listening := false, speaking := true },
       wakeActs ++ [Act.stopStream, Act.speak (Utterance.raw stopListeningMsg),
                    Act.resetTranscript])
    | Dispatch.noMatch => (s0, wakeActs)

/-- The `utterance.onend` handler of `speakText` (src/App.tsx lines
219-222): the speech-completion signal clears the speaking and processing
flags and does nothing else. -/
def onSpeechEnd (s : AppState) : AppState × List Act :=
  ({ s with speaking := false, processingCommand := false }, [])

/-- The orchestrator's external event sources: a transcript update (with
the random draw the conversation replies use) or the speech-completion
signal. -/
inductive Event where
  | transcriptEv (t : String) (pick : Nat)
  | speechEnd

/-- One orchestrator step. -/
def step (o : Oracle) (s : AppState) : Event → AppState × List Act
  | Event.transcriptEv t pick => processTranscript o pick t s
  | Event.speechEnd => onSpeechEnd s

/-- Idle-but-listening initial state (src/App.tsx lines 29-39 after the
auto-listening effect has started the stream). -/
def st0 : AppState :=
  { autoListening := true, listening := true, cryptoData := none,
    historicalPrices := [], loading := false, speaking := false,
    error := none, wakeWordDetected := false, processingCommand := false,
    lastInteraction := "" }

/-- A state in the middle of a command cycle: the processing flag is set. -/
def stBusy : AppState := { st0 with processingCommand := true }

/-- A concrete ticker snapshot (the §8 scenario values of the spec). -/
def tk0 : Ticker :=
  { priceChange := 500, priceChangePercent := 77/100, lastPrice := 65000,
    volume := 15000000, highPrice := 66000, lowPrice := 64000 }

/-- An oracle whose market service always answers. -/
def oracle0 : Oracle :=
  { ticker := fun _ => some tk0,
    klines := fun _ => some [(0, 64000), (1, 65000)],
    nowTime := "10:00 AM", nowDate := "Saturday, October 11, 2025" }

/-- An oracle whose ticker fetch always fails. -/
def oracleTickerFail : Oracle := { oracle0 with ticker := fun _ => none }

/-- An oracle whose candle-series fetch always fails. -/
def oracleKlinesFail : Oracle := { oracle0 with klines := fun _ => none }


/-- Number of stream-stop effects in an action list. -/
def countStops (l : List Act) : Nat :=
  l.count Act.stopStream

/-! ## Helper lemmas -/

/-- A transcript event that arrives while the processing flag is set is a
complete no-op: unchanged state, no effects. -/
theorem processTranscript_busy (o : Oracle) (pick : Nat) (t : String)
    (s : AppState) (h : s.processingCommand = true) :
    processTranscript o pick t s = (s, []) := by
  by_cases h1 : s.listening = false ∨ t = ""
  · simp [processTranscript, h1]
  · simp [processTranscript, h1, h]

/-- `handleConversation` always ends in exactly one spoken utterance. -/
theorem handleConversation_speaks (o : Oracle) (pick : Nat) (text : String)
    (s : AppState) :
    ∃ u, (handleConversation o pick text s).2 = [Act.speak u] :=
  ⟨_, rfl⟩

/-- `fetchCryptoData` ends in a spoken utterance on every path: alias
failure, ticker failure, and success all speak. -/
theorem fetchCryptoData_speaks (o : Oracle) (k : String) (s : AppState) :
    ∃ u, Act.speak u ∈ (fetchCryptoData o k s).2 := by
  rcases hn : normalizeSymbol k with _ | ns
  · exact ⟨Utterance.raw
      (cryptoApology k ("Could not recognize cryptocurrency: " ++ k)),
      by simp [fetchCryptoData, hn]⟩
  · rcases ht : o.ticker ns with _ | tk
    · exact ⟨Utterance.raw
        (cryptoApology k ("Failed to fetch data for " ++ ns)),
        by simp [fetchCryptoData, hn, ht]⟩
    · exact ⟨speakAnalysisUtterance (mkCryptoData ns tk),
        by simp [fetchCryptoData, hn, ht]⟩

/-! ## Claim theorems -/

/-- Claim C1 (confirmed). Single-flight invariant: (1) a transcript event
arriving while the processing flag is set is dropped entirely — the state is
unchanged and no fetch or speech effect is started; (2) a set flag is
cleared only by the speech-completion signal, never by a transcript event;
(3) every transcript event that sets the flag also hands at least one
utterance to the speech engine, so the completion signal that clears the
flag is the exit point of every cycle, error paths included. -/
theorem c1_single_flight :
    (∀ (o : Oracle) (pick : Nat) (t : String) (s : AppState),
        s.processingCommand = true → processTranscript o pick t s = (s, [])) ∧
    (∀ (o : Oracle) (s : AppState) (e : Event),
        s.processingCommand = true →
        (step o s e).1.processingCommand = false → e = Event.speechEnd) ∧
    (∀ (o : Oracle) (pick : Nat) (t : String) (s : AppState),
        s.processingCommand = false →
        (processTranscript o pick t s).1.processingCommand = true →
        ∃ u, Act.speak u ∈ (processTranscript o pick t s).2) := by
  refine ⟨fun o pick t s h => processTranscript_busy o pick t s h, ?_, ?_⟩
  · intro o s e h h2
    cases e with
    | transcriptEv t pick =>
      simp only [step] at h2
      rw [processTranscript_busy o pick t s h] at h2
      rw [h] at h2
      exact absurd h2 (by simp)
    | speechEnd => rfl
  · intro o pick t s h h2
    by_cases h1 : s.listening = false ∨ t = ""
    · simp [processTranscript, h1] at h2
      rw [h] at h2
      exact absurd h2 (by simp)
    · by_cases hw : strIncludes (toLowerStr t) "jarvis"
      all_goals rcases hc : classify t with lower | kw | _ | _ | _ | _ | _
      case pos.conversational =>
        obtain ⟨u, hu⟩ := handleConversation_speaks o pick lower
          { s with wakeWordDetected := true }
        rw [h] at hu
        exact ⟨u, by simp [processTranscript, h1, h, hc, hw, hu]⟩
      case pos.crypto =>
        obtain ⟨u, hu⟩ := fetchCryptoData_speaks o kw
          { s with wakeWordDetected := true, processingCommand := true }
        refine ⟨u, ?_⟩
        simp [processTranscript, h1, h, hc, hw, List.mem_append]
        exact hu
      case pos.noMatch =>
        simp [processTranscript, h1, h, hc, hw] at h2
      case pos.greet =>
        exact ⟨Utterance.raw helloMsg,
          by simp [processTranscript, h1, h, hc, hw]⟩
      case pos.thanksReply =>
        exact ⟨Utterance.raw thanksReplyMsg,
          by simp [processTranscript, h1, h, hc, hw]⟩
      case pos.helpReply =>
        exact ⟨Utterance.raw helpMsg,
          by simp [processTranscript, h1, h, hc, hw]⟩
      case pos.stop =>
        exact ⟨Utterance.raw stopListeningMsg,
          by simp [processTranscript, h1, h, hc, hw]⟩
      case neg.conversational =>
        obtain ⟨u, hu⟩ := handleConversation_speaks o pick lower s
        exact ⟨u, by simp [processTranscript, h1, h, hc, hw, hu]⟩
      case neg.crypto =>
        obtain ⟨u, hu⟩ := fetchCryptoData_speaks o kw
          { s with processingCommand := true }
        refine ⟨u, ?_⟩
        simp [processTranscript, h1, h, hc, hw, List.mem_append]
        exact hu
      case neg.noMatch =>
        simp [processTranscript, h1, h, hc, hw] at h2
      case neg.greet =>
        exact ⟨Utterance.raw helloMsg,
          by simp [processTranscript, h1, h, hc, hw]⟩
      case neg.thanksReply =>
        exact ⟨Utterance.raw thanksReplyMsg,
          by simp [processTranscript, h1, h, hc, hw]⟩
      case neg.helpReply =>
        exact ⟨Utterance.raw helpMsg,
          by simp [processTranscript, h1, h, hc, hw]⟩
      case neg.stop =>
        exact ⟨Utterance.raw stopListeningMsg,
          by simp [processTranscript, h1, h, hc, hw]⟩

/-- Witness for C1: concrete instances discharging each hypothesis — a
"bitcoin" transcript is dropped while busy, the speech-end event is the
clearing event, and a flag-setting "bitcoin" transcript from idle speaks. -/
theorem c1_single_flight_witness :
    processTranscript oracle0 0 "bitcoin" stBusy = (stBusy, []) ∧
    Event.speechEnd = Event.speechEnd ∧
    (∃ u, Act.speak u ∈ (processTranscript oracle0 0 "bitcoin" st0).2) :=
  ⟨c1_single_flight.1 oracle0 0 "bitcoin" stBusy rfl,
   c1_single_flight.2.1 oracle0 stBusy Event.speechEnd rfl rfl,
   c1_single_flight.2.2 oracle0 0 "bitcoin" st0 rfl (by decide)⟩

/-- Claim C2, counterexample: "thanks bitcoin" contains the conversational
keyword "thanks" and the crypto alias "bitcoin", yet classifies as the
crypto query — the thanks branch is tested only after the crypto-keyword
loop, so the claimed conversational priority fails for thanks (and likewise
greeting and help). -/
theorem c2_priority_counterexample :
    classify "thanks bitcoin" = Dispatch.crypto "bitcoin" := by decide

/-- Claim C2 (amended): a transcript hitting the first-checked
conversational keyword group (identity, wellbeing, capabilities, time/date,
weather, joke, farewell) classifies as conversational, never as the crypto
query, because that group is tested before the crypto-asset keywords;
greeting, thanks and help are NOT in this group. -/
theorem c2_priority_amended (t : String)
    (h : convKeywordMatch (toLowerStr t) = true) :
    classify t = Dispatch.conversational (toLowerStr t) := by
  unfold classify
  simp [h]

/-- Witness for C2's amended theorem at "how are you bitcoin". -/
theorem c2_priority_witness :
    convKeywordMatch (toLowerStr "how are you bitcoin") = true ∧
    classify "how are you bitcoin" =
      Dispatch.conversational (toLowerStr "how are you bitcoin") :=
  ⟨by decide, c2_priority_amended "how are you bitcoin" (by decide)⟩

/-- Claim C3, counterexample: the transcript "abc" matches no keyword group,
and the orchestrator produces NO command and NO utterance at all — the
state is unchanged and the action list is empty, so no catch-all
`Conversational(unrecognized)` response is produced. -/
theorem c3_totality_counterexample :
    classify "abc" = Dispatch.noMatch ∧
    processTranscript oracle0 0 "abc" st0 = (st0, []) := by
  constructor <;> decide

/-- Claim C3 (amended): classification is pure and deterministic — every
transcript yields exactly one dispatch — but the catch-all is `noMatch`,
not a spoken unrecognized-reply: a listening, non-busy orchestrator given a
non-empty transcript that matches nothing (and lacks the wake word) leaves
the state unchanged and emits no action; the unrecognized reply of
`handleConversation` is reachable only behind a conversational keyword. -/
theorem c3_totality_amended :
    (∀ t : String, ∃! d : Dispatch, classify t = d) ∧
    (∀ (o : Oracle) (pick : Nat) (t : String) (s : AppState),
        s.listening = true → t ≠ "" → s.processingCommand = false →
        classify t = Dispatch.noMatch →
        strIncludes (toLowerStr t) "jarvis" = false →
        processTranscript o pick t s = (s, [])) := by
  constructor
  · exact fun t => ⟨classify t, rfl, fun y hy => hy.symm⟩
  · intro o pick t s h1 h2 h3 hc hw
    unfold processTranscript
    simp [h1, h2, h3, hc, hw]

/-- Witness for C3's amended theorem at the unmatched transcript "abc". -/
theorem c3_totality_witness :
    processTranscript oracle0 0 "abc" st0 = (st0, []) :=
  c3_totality_amended.2 oracle0 0 "abc" st0 rfl (by decide) rfl (by decide)
    (by decide)

/-- Claim C10 (confirmed). Alias selection: with no conversational match,
the dispatched crypto keyword is the first hit of the fixed vocabulary scan
(vocabulary order, not transcript order); every vocabulary keyword resolves
to a canonical market-pair symbol; "dogecoin" resolves to "DOGEUSDT" and an
out-of-vocabulary alias such as "moonrocket" resolves to none. -/
theorem c10_alias_selection :
    (∀ (t k : String), convKeywordMatch (toLowerStr t) = false →
        cryptoKeywords.find? (fun kw => strIncludes (toLowerStr t) kw) = some k →
        classify t = Dispatch.crypto k) ∧
    (∀ k ∈ cryptoKeywords, (normalizeSymbol k).isSome = true) ∧
    normalizeSymbol "dogecoin" = some "DOGEUSDT" ∧
    normalizeSymbol "moonrocket" = none := by
  refine ⟨?_, by decide, by decide, by decide⟩
  intro t k h1 h2
  unfold classify
  simp [h1, h2]

/-- Witness for C10: in "doge and bitcoin" the transcript mentions "doge"
first, but the vocabulary scan hits "bitcoin" first, so the query is for
"bitcoin"; and "doge" itself resolves to a canonical symbol. -/
theorem c10_alias_selection_witness :
    classify "doge and bitcoin" = Dispatch.crypto "bitcoin" ∧
    (normalizeSymbol "doge").isSome = true :=
  ⟨c10_alias_selection.1 "doge and bitcoin" "bitcoin" (by decide) (by decide),
   c10_alias_selection.2.1 "doge" (by decide)⟩

/-- Claim C4, counterexample: for a snapshot with absolute price change -1
and percent change +2 the percent change is positive, yet trend/sentiment
come out "downward"/"negative" — the sign tests read the absolute price
change, not the signed percent change as the claim states. -/
theorem c4_trend_counterexample :
    (0 : ℚ) < 2 ∧ speakAnalysisTrendSentiment (-1) 2 = ("downward", "negative") := by
  constructor
  · norm_num
  · simp [speakAnalysisTrendSentiment, abs_of_pos]
    norm_num

/-- Claim C4 (amended): trend is "upward" and sentiment "positive" exactly
when the absolute price change is > 0, else "downward"/"negative", and both
are overridden to "relatively stable"/"neutral" exactly when the percent
change has absolute value < 0.5 — the sign tests use the absolute
price-change value, the stability test the percent-change value. -/
theorem c4_trend_amended (pc pcp : ℚ) :
    speakAnalysisTrendSentiment pc pcp =
      if |pcp| < (0.5 : ℚ) then ("relatively stable", "neutral")
      else if pc > 0 then ("upward", "positive")
      else ("downward", "negative") := by
  unfold speakAnalysisTrendSentiment
  by_cases h : |pcp| < (0.5 : ℚ) <;> by_cases h2 : pc > 0 <;> simp [h, h2]

/-- Witness for C4's amended theorem at the §8 scenario snapshot values. -/
theorem c4_trend_witness :
    speakAnalysisTrendSentiment 500 (77/100) =
      (if |(77/100 : ℚ)| < (0.5 : ℚ) then ("relatively stable", "neutral")
       else if (500 : ℚ) > 0 then ("upward", "positive")
       else ("downward", "negative")) :=
  c4_trend_amended 500 (77/100)

/-- Claim C5 (confirmed). Strict threshold boundaries: at percent change
exactly ±0.5 the stability override does not fire (trend/sentiment come
from the sign test), and at percent change exactly ±5 the strong-movement
advice is not selected — the result is the consolidation or the generic
risk-tolerance message, and with the trend the pipeline itself computes at
±5 it is exactly the generic message. -/
theorem c5_threshold_boundaries :
    (∀ pc : ℚ,
        speakAnalysisTrendSentiment pc (0.5 : ℚ) =
          (if pc > 0 then ("upward", "positive") else ("downward", "negative")) ∧
        speakAnalysisTrendSentiment pc (-(0.5 : ℚ)) =
          (if pc > 0 then ("upward", "positive") else ("downward", "negative"))) ∧
    (∀ trend : String,
        (generateAdvice 5 trend = consolidationAdvice ∨
         generateAdvice 5 trend = genericAdvice) ∧
        (generateAdvice (-5) trend = consolidationAdvice ∨
         generateAdvice (-5) trend = genericAdvice)) ∧
    (∀ pc : ℚ,
        generateAdvice 5 (speakAnalysisTrendSentiment pc 5).1 = genericAdvice ∧
        generateAdvice (-5) (speakAnalysisTrendSentiment pc (-5)).1 =
          genericAdvice) := by
  have habs1 : ¬|(0.5 : ℚ)| < 0.5 := by
    rw [abs_of_pos (show (0 : ℚ) < 0.5 by norm_num)]; norm_num
  have habs2 : ¬|(-(0.5 : ℚ))| < 0.5 := by
    rw [abs_neg, abs_of_pos (show (0 : ℚ) < 0.5 by norm_num)]; norm_num
  have habs3 : ¬|(5 : ℚ)| > 5 := by
    rw [abs_of_pos (show (0 : ℚ) < 5 by norm_num)]; norm_num
  have habs4 : ¬|(-5 : ℚ)| > 5 := by
    rw [abs_neg, abs_of_pos (show (0 : ℚ) < 5 by norm_num)]; norm_num
  have habs5 : ¬|(5 : ℚ)| < 0.5 := by
    rw [abs_of_pos (show (0 : ℚ) < 5 by norm_num)]; norm_num
  have habs6 : ¬|(-5 : ℚ)| < 0.5 := by
    rw [abs_neg, abs_of_pos (show (0 : ℚ) < 5 by norm_num)]; norm_num
  refine ⟨?_, ?_, ?_⟩
  · intro pc
    constructor
    · unfold speakAnalysisTrendSentiment
      rw [if_neg habs1]
      by_cases h2 : pc > 0 <;> simp [h2]
    · unfold speakAnalysisTrendSentiment
      rw [if_neg habs2]
      by_cases h2 : pc > 0 <;> simp [h2]
  · intro trend
    constructor
    · unfold generateAdvice
      rw [if_neg habs3]
      by_cases ht : trend == "relatively stable" <;> simp [ht]
    · unfold generateAdvice
      rw [if_neg habs4]
      by_cases ht : trend == "relatively stable" <;> simp [ht]
  · intro pc
    constructor
    · unfold speakAnalysisTrendSentiment generateAdvice
      rw [if_neg habs3, if_neg habs5]
      by_cases h2 : pc > 0 <;> simp [h2]
    · unfold speakAnalysisTrendSentiment generateAdvice
      rw [if_neg habs4, if_neg habs6]
      by_cases h2 : pc > 0 <;> simp [h2]

/-- Witness for C5 at a concrete sign and trend. -/
theorem c5_threshold_boundaries_witness :
    speakAnalysisTrendSentiment 1 (0.5 : ℚ) =
      (if (1 : ℚ) > 0 then ("upward", "positive")
       else ("downward", "negative")) ∧
    (generateAdvice 5 "upward" = consolidationAdvice ∨
     generateAdvice 5 "upward" = genericAdvice) ∧
    generateAdvice 5 (speakAnalysisTrendSentiment 1 5).1 = genericAdvice :=
  ⟨(c5_threshold_boundaries.1 1).1,
   (c5_threshold_boundaries.2.1 "upward").1,
   (c5_threshold_boundaries.2.2 1).1⟩

/-- Claim C6 (code bug evaluation). The speech normalizer renders "$12.50"
as " dollars 12 point 50", NOT as the claimed currency form
"12 dollars and 50 cents": the decimal rule's own monetary test
`match.includes(String.fromCharCode 36)` can never hold because the regex
match is digits-only, and the fallback context test looks for the words
"price"/"dollar" in the original text, which "$12.50" does not contain —
contradicting the code's stated intent of reading prices as dollars and
cents. -/
theorem c6_normalizer_dollar_bug :
    formatSpeechText "$12.50" = " dollars 12 point 50" ∧
    formatSpeechText "$12.50" ≠ "12 dollars and 50 cents" := by
  constructor <;> decide

/-- Claim C7 (confirmed). A history-fetch failure is silently recovered:
with a resolving alias, a successful ticker fetch and a failing candle
fetch, the cycle still performs both fetches and speaks exactly the market
analysis (no error utterance), the error banner stays clear, and the stored
historical series is left untouched (in particular an empty chart stays
empty). -/
theorem c7_history_failure_recovered (o : Oracle) (k ns : String)
    (tk : Ticker) (s : AppState) (h1 : normalizeSymbol k = some ns)
    (h2 : o.ticker ns = some tk) (h3 : o.klines ns = none) :
    (fetchCryptoData o k s).2 =
      [Act.startTickerFetch ns, Act.startKlinesFetch ns,
       Act.speak (speakAnalysisUtterance (mkCryptoData ns tk))] ∧
    (fetchCryptoData o k s).1.error = none ∧
    (fetchCryptoData o k s).1.historicalPrices = s.historicalPrices ∧
    (fetchCryptoData o k s).1.cryptoData = some (mkCryptoData ns tk) := by
  simp [fetchCryptoData, fetchHistoricalPrices, h1, h2, h3]

/-- Witness for C7: a "bitcoin" query against an oracle whose candle fetch
always fails. -/
theorem c7_history_failure_recovered_witness :
    (fetchCryptoData oracleKlinesFail "bitcoin" st0).2 =
      [Act.startTickerFetch "BTCUSDT", Act.startKlinesFetch "BTCUSDT",
       Act.speak (speakAnalysisUtterance (mkCryptoData "BTCUSDT" tk0))] ∧
    (fetchCryptoData oracleKlinesFail "bitcoin" st0).1.error = none ∧
    (fetchCryptoData oracleKlinesFail "bitcoin" st0).1.historicalPrices =
      st0.historicalPrices ∧
    (fetchCryptoData oracleKlinesFail "bitcoin" st0).1.cryptoData =
      some (mkCryptoData "BTCUSDT" tk0) :=
  c7_history_failure_recovered oracleKlinesFail "bitcoin" "BTCUSDT" tk0 st0
    (by decide) rfl rfl

/-- Claim C8 (confirmed). Partial-failure atomicity: if the alias is
unresolved or the ticker fetch fails, both the stored snapshot and the
stored historical series keep their prior values; conversely the snapshot
is replaced only when the alias resolved and the ticker fetch succeeded,
and the series only when additionally its own fetch succeeded. -/
theorem c8_partial_failure_atomicity (o : Oracle) (k : String)
    (s : AppState) :
    (normalizeSymbol k = none →
        (fetchCryptoData o k s).1.cryptoData = s.cryptoData ∧
        (fetchCryptoData o k s).1.historicalPrices = s.historicalPrices) ∧
    (∀ ns, normalizeSymbol k = some ns → o.ticker ns = none →
        (fetchCryptoData o k s).1.cryptoData = s.cryptoData ∧
        (fetchCryptoData o k s).1.historicalPrices = s.historicalPrices) ∧
    ((fetchCryptoData o k s).1.cryptoData ≠ s.cryptoData →
        ∃ ns tk, normalizeSymbol k = some ns ∧ o.ticker ns = some tk) ∧
    ((fetchCryptoData o k s).1.historicalPrices ≠ s.historicalPrices →
        ∃ ns ps, normalizeSymbol k = some ns ∧ o.klines ns = some ps) := by
  refine ⟨?_, ?_, ?_, ?_⟩
  · intro hn
    simp [fetchCryptoData, hn]
  · intro ns hn ht
    simp [fetchCryptoData, hn, ht]
  · intro hchanged
    rcases hn : normalizeSymbol k with _ | ns
    · exact absurd (by simp [fetchCryptoData, hn]) hchanged
    · rcases ht : o.ticker ns with _ | tk
      · exact absurd (by simp [fetchCryptoData, hn, ht]) hchanged
      · exact ⟨ns, tk, rfl, ht⟩
  · intro hchanged
    rcases hn : normalizeSymbol k with _ | ns
    · exact absurd (by simp [fetchCryptoData, hn]) hchanged
    · rcases ht : o.ticker ns with _ | tk
      · exact absurd (by simp [fetchCryptoData, hn, ht]) hchanged
      · rcases hk : o.klines ns with _ | ps
        · exact absurd
            (by simp [fetchCryptoData, fetchHistoricalPrices, hn, ht, hk])
            hchanged
        · exact ⟨ns, ps, rfl, hk⟩

/-- Witness for C8: an unresolvable alias and a failing ticker fetch leave
both stores untouched; a fully successful "bitcoin" query is the concrete
success case for the converse parts. -/
theorem c8_partial_failure_atomicity_witness :
    ((fetchCryptoData oracle0 "moonrocket" st0).1.cryptoData =
        st0.cryptoData ∧
     (fetchCryptoData oracle0 "moonrocket" st0).1.historicalPrices =
        st0.historicalPrices) ∧
    ((fetchCryptoData oracleTickerFail "bitcoin" st0).1.cryptoData =
        st0.cryptoData ∧
     (fetchCryptoData oracleTickerFail "bitcoin" st0).1.historicalPrices =
        st0.historicalPrices) ∧
    (∃ ns tk, normalizeSymbol "bitcoin" = some ns ∧
        oracle0.ticker ns = some tk) ∧
    (∃ ns ps, normalizeSymbol "bitcoin" = some ns ∧
        oracle0.klines ns = some ps) :=
  ⟨(c8_partial_failure_atomicity oracle0 "moonrocket" st0).1 (by decide),
   (c8_partial_failure_atomicity oracleTickerFail "bitcoin" st0).2.1
     "BTCUSDT" (by decide) rfl,
   (c8_partial_failure_atomicity oracle0 "bitcoin" st0).2.2.1 (by decide),
   (c8_partial_failure_atomicity oracle0 "bitcoin" st0).2.2.2 (by decide)⟩

/-- Claim C9, counterexample: on "stop listening" the stream-stop effect is
issued inside the transcript-processing step itself — before the
confirmation utterance has even started, hence before it completes — and
the speech-completion step issues nothing; the claimed
"stop the input stream once the utterance completes" ordering is wrong. -/
theorem c9_stop_listening_counterexample :
    (processTranscript oracle0 0 "stop listening" st0).2 =
      [Act.stopStream, Act.speak (Utterance.raw stopListeningMsg),
       Act.resetTranscript] ∧
    (onSpeechEnd (processTranscript oracle0 0 "stop listening" st0).1).2 =
      [] := by
  constructor <;> decide

/-- Claim C9 (amended): a "stop listening" transcript received while
listening and not busy stops the input stream immediately within the same
step (before speaking), clears `listening` and `autoListening`, speaks the
confirmation, and sets the processing flag; the speech-completion signal
then merely clears the speaking/processing flags; over the
transcript-plus-completion scenario the command handler issues exactly one
stream-stop. -/
theorem c9_stop_listening_amended (o : Oracle) (pick : Nat) (s : AppState)
    (h1 : s.listening = true) (h2 : s.processingCommand = false) :
    (processTranscript o pick "stop listening" s).2 =
      [Act.stopStream, Act.speak (Utterance.raw stopListeningMsg),
       Act.resetTranscript] ∧
    (processTranscript o pick "stop listening" s).1.listening = false ∧
    (processTranscript o pick "stop listening" s).1.autoListening = false ∧
    (processTranscript o pick "stop listening" s).1.processingCommand = true ∧
    (processTranscript o pick "stop listening" s).1.speaking = true ∧
    (onSpeechEnd
        (processTranscript o pick "stop listening" s).1).1.processingCommand =
      false ∧
    countStops ((processTranscript o pick "stop listening" s).2 ++
        (onSpeechEnd (processTranscript o pick "stop listening" s).1).2) =
      1 := by
  have hc : classify "stop listening" = Dispatch.stop := by decide
  have hw : strIncludes (toLowerStr "stop listening") "jarvis" = false := by
    decide
  have hne : ("stop listening" : String) ≠ "" := by decide
  unfold processTranscript
  simp [h1, h2, hc, hw, hne, onSpeechEnd, countStops]
  decide

/-- Witness for C9's amended theorem from the idle-listening state. -/
theorem c9_stop_listening_amended_witness :
    countStops ((processTranscript oracle0 0 "stop listening" st0).2 ++
        (onSpeechEnd (processTranscript oracle0 0 "stop listening" st0).1).2) =
      1 :=
  (c9_stop_listening_amended oracle0 0 st0 rfl rfl).2.2.2.2.2.2
